import Mathlib

/-!
# Task list viewer — synchronization state machine, shallowly embedded

Embedding of the task-list application (React Native, `src/unnamed/part_000`,
the main `App` component). The component's state updates are pure functional
replacements (`setState(prev => ...)`), so each operation is modelled as a
function from the pre-state to a *trace* of successive states, one entry per
`setState` call, together with the effect on the persistent key-value cache
and the number of remote (network) invocations.

External collaborators are parameters:
* the remote source's answer is `Except Unit (List Task)` (`.ok data` for a
  2xx decoded payload, `.error ()` for any transport/decode failure),
* the cache's stored content is `Option (List Task)` (`none` = key absent),
  a read may fail (`readOk = false` models `AsyncStorage.getItem` throwing)
  and a write may fail (`writeOk = false` models `setItem` rejecting).
-/

namespace Todos

/-- `interface Task` of the source: integer id, title, completed flag. -/
structure Task where
  id : Int
  title : String
  completed : Bool
deriving DecidableEq, Repr

/-- `enum FILTER { ALL, COMPLETED, INCOMPLETE }` of the source. -/
inductive FILTER where
  | ALL
  | COMPLETED
  | INCOMPLETE
deriving DecidableEq, Repr

/-- `interface AppState` of the source: the controller state (`SyncState`).
`error : Option String` stands for `string | null`. -/
structure AppState where
  tasks : List Task
  loading : Bool
  error : Option String
  refreshing : Bool
  filter : FILTER
deriving DecidableEq, Repr

/-- The `useState` initialiser: `tasks: [], loading: true, error: null,
refreshing: false, filter: FILTER.ALL`. -/
def initialState : AppState :=
  { tasks := [], loading := true, error := none, refreshing := false,
    filter := FILTER.ALL }

/-- The fixed user-facing failure text of `fetchTasks`'s catch handler. -/
def errorMsg : String := "Failed to load tasks. Please try again later."

/-- Outcome of running one operation: the states after each `setState` in
order, the cache content afterwards, the collections passed to
`AsyncStorage.setItem`, and how many times the remote endpoint was hit. -/
structure RunResult where
  trace : List AppState
  cache : Option (List Task)
  writesIssued : List (List Task)
  remoteCalls : Nat
deriving DecidableEq, Repr

/-- The state after a trace, starting from `s` (traces here are non-empty,
the default is never taken on the operations below). -/
def lastState (s : AppState) (tr : List AppState) : AppState :=
  tr.getLastD s

/-- `fetchTasks` of the source (lines 46–71). First `setState` turns
`loading` on and clears `error`; then `axios.get`:
* success — `setState` stores the data with `loading: false`, then
  `AsyncStorage.setItem('tasks', ...)` is awaited *inside the same try*,
  so a failing write falls into the catch handler;
* any throw (network failure or the failed write) — the catch logs and
  `setState`s `loading: false` with the fixed error message. -/
def fetchTasks (s : AppState) (cache : Option (List Task))
    (remote : Except Unit (List Task)) (writeOk : Bool) : RunResult :=
  let s1 : AppState := { s with loading := true, error := none }
  match remote with
  | .ok data =>
      let s2 : AppState := { s1 with tasks := data, loading := false }
      if writeOk then
        { trace := [s1, s2], cache := some data, writesIssued := [data],
          remoteCalls := 1 }
      else
        { trace := [s1, s2, { s2 with loading := false, error := some errorMsg }],
          cache := cache, writesIssued := [data], remoteCalls := 1 }
  | .error _ =>
      { trace := [s1, { s1 with loading := false, error := some errorMsg }],
        cache := cache, writesIssued := [], remoteCalls := 1 }

/-- `loadStoredTasks` of the source (lines 74–99), the effect run once at
startup: `AsyncStorage.getItem('tasks')`, then a `setState` clearing
`loading` and `refreshing`; when the stored value is present a second
`setState` installs it, otherwise `fetchTasks()` runs; when `getItem`
throws, the catch falls back to `fetchTasks()` directly. -/
def loadStoredTasks (s : AppState) (cache : Option (List Task))
    (readOk : Bool) (remote : Except Unit (List Task)) (writeOk : Bool) :
    RunResult :=
  if readOk then
    let s1 : AppState := { s with loading := false, refreshing := false }
    match cache with
    | some data =>
        { trace := [s1, { s1 with tasks := data, loading := false }],
          cache := cache, writesIssued := [], remoteCalls := 0 }
    | none =>
        let r := fetchTasks s1 cache remote writeOk
        { r with trace := s1 :: r.trace }
  else
    fetchTasks s cache remote writeOk

/-- `handleRefresh` of the source (lines 110–114): `setState` turning
`refreshing` on (and touching nothing else), `await fetchTasks()`, then a
`setState` turning `refreshing` off. -/
def handleRefresh (s : AppState) (cache : Option (List Task))
    (remote : Except Unit (List Task)) (writeOk : Bool) : RunResult :=
  let sR : AppState := { s with refreshing := true }
  let r := fetchTasks sR cache remote writeOk
  let sEnd : AppState := { lastState sR r.trace with refreshing := false }
  { r with trace := sR :: (r.trace ++ [sEnd]) }

/-- The body of `toggleComplete`'s map (line 105):
`task.id === taskId ? {...task, completed: !task.completed} : task`. -/
def toggleTask (taskId : Int) (task : Task) : Task :=
  if task.id = taskId then { task with completed := !task.completed }
  else task

/-- `toggleComplete` of the source (lines 101–108): map over `tasks`,
flipping `completed` of every task whose id matches. -/
def toggleComplete (taskId : Int) (s : AppState) : AppState :=
  { s with tasks := s.tasks.map (toggleTask taskId) }

/-- The three filter buttons' `onPress` handlers (lines 152–174):
`setState(prev => ({...prev, filter: FILTER.X}))`. -/
def setFilter (f : FILTER) (s : AppState) : AppState :=
  { s with filter := f }

/-- `filteredTasks` of the source (lines 117–121): keep `completed` tasks
under COMPLETED, the others under INCOMPLETE, everything under ALL. -/
def filteredTasks (s : AppState) : List Task :=
  s.tasks.filter fun task =>
    if s.filter = FILTER.COMPLETED then task.completed
    else if s.filter = FILTER.INCOMPLETE then !task.completed
    else true

/-- The render modes the component can return. -/
inductive RenderMode where
  | FULL_LOADING
  | ERROR
  | SKELETON
  | LIST (visible : List Task)
deriving DecidableEq, Repr

/-- The view-state projection of the component body (lines 124–142 and
177–187): spinner when `loading && !refreshing`; else the error screen when
`error` is set; else the skeleton when `loading && refreshing`; else the
filtered list. -/
def renderMode (s : AppState) : RenderMode :=
  if s.loading && !s.refreshing then RenderMode.FULL_LOADING
  else if s.error.isSome then RenderMode.ERROR
  else if s.loading && s.refreshing then RenderMode.SKELETON
  else RenderMode.LIST (filteredTasks s)

/-- Adjacent transitions of a trace, the pre-state prepended. -/
def statePairs : AppState → List AppState → List (AppState × AppState)
  | _, [] => []
  | prev, b :: rest => (prev, b) :: statePairs b rest

/-- What actually holds of one state transition of this component, given the
collaborator outcomes of the run: turning `loading` on clears `error` in the
same update; turning `refreshing` on leaves `error` untouched; `error` turns
non-null only to the fixed message, and only when the remote call failed or
the in-try cache write failed. -/
def stepOk (remote : Except Unit (List Task)) (writeOk : Bool)
    (p : AppState × AppState) : Prop :=
  (p.1.loading = false ∧ p.2.loading = true → p.2.error = none) ∧
  (p.1.refreshing = false ∧ p.2.refreshing = true → p.2.error = p.1.error) ∧
  (p.1.error = none ∧ p.2.error ≠ none →
    p.2.error = some errorMsg ∧ (remote = Except.error () ∨ writeOk = false))

/-- C1: the component body checks `loading && !refreshing` first, then
`error`, then `loading && refreshing`, and otherwise renders the filtered
list. -/
theorem renderMode_priority (s : AppState) :
    (s.loading = true ∧ s.refreshing = false →
      renderMode s = RenderMode.FULL_LOADING) ∧
    (¬(s.loading = true ∧ s.refreshing = false) → s.error ≠ none →
      renderMode s = RenderMode.ERROR) ∧
    (¬(s.loading = true ∧ s.refreshing = false) → s.error = none →
      s.loading = true ∧ s.refreshing = true →
      renderMode s = RenderMode.SKELETON) ∧
    (¬(s.loading = true ∧ s.refreshing = false) → s.error = none →
      ¬(s.loading = true ∧ s.refreshing = true) →
      renderMode s = RenderMode.LIST (filteredTasks s)) := by
  rcases s with ⟨tasks, l, e, r, f⟩
  cases l <;> cases r <;> cases e <;>
    simp [renderMode]

/-- C7: filtering with ALL is the identity; COMPLETED keeps exactly the
completed tasks and INCOMPLETE exactly the unfinished ones, each as an
order-preserving sublist; the two partitions together are a permutation of
the original collection. -/
theorem filteredTasks_partition (s : AppState) :
    filteredTasks { s with filter := FILTER.ALL } = s.tasks ∧
    List.Sublist (filteredTasks { s with filter := FILTER.COMPLETED }) s.tasks ∧
    List.Sublist (filteredTasks { s with filter := FILTER.INCOMPLETE }) s.tasks ∧
    (∀ t, t ∈ filteredTasks { s with filter := FILTER.COMPLETED } ↔
      t ∈ s.tasks ∧ t.completed = true) ∧
    (∀ t, t ∈ filteredTasks { s with filter := FILTER.INCOMPLETE } ↔
      t ∈ s.tasks ∧ t.completed = false) ∧
    List.Perm
      (filteredTasks { s with filter := FILTER.COMPLETED } ++
        filteredTasks { s with filter := FILTER.INCOMPLETE }) s.tasks := by
  refine ⟨?_, ?_, ?_, ?_, ?_, ?_⟩
  · simp [filteredTasks]
  · simp [filteredTasks]
  · simp [filteredTasks]
  · intro t; simp [filteredTasks]
  · intro t; simp [filteredTasks]
  · simpa [filteredTasks] using
      List.filter_append_perm (fun t => t.completed) s.tasks

/-- Toggling the same id twice restores a task exactly. -/
lemma toggleTask_toggleTask (taskId : Int) (t : Task) :
    toggleTask taskId (toggleTask taskId t) = t := by
  rcases t with ⟨i, ti, c⟩
  by_cases h : i = taskId <;> simp [toggleTask, h]

/-- A task whose id differs is left alone. -/
lemma toggleTask_of_ne (taskId : Int) (t : Task) (h : t.id ≠ taskId) :
    toggleTask taskId t = t := by
  simp [toggleTask, h]

/-- C8: `toggleComplete` is an involution on the whole state, and a no-op
when no task carries the id. -/
theorem toggleComplete_involution (taskId : Int) (s : AppState) :
    toggleComplete taskId (toggleComplete taskId s) = s ∧
    ((∀ t ∈ s.tasks, t.id ≠ taskId) → toggleComplete taskId s = s) := by
  rcases s with ⟨tasks, l, e, r, f⟩
  constructor
  · simp only [toggleComplete, List.map_map, AppState.mk.injEq,
      and_true, true_and]
    induction tasks with
    | nil => rfl
    | cons hd tl ih => simp [toggleTask_toggleTask, ih]
  · intro hid
    simp only [toggleComplete, AppState.mk.injEq, and_true, true_and]
    induction tasks with
    | nil => rfl
    | cons hd tl ih =>
        simp only [List.map_cons, List.cons.injEq]
        exact ⟨toggleTask_of_ne taskId hd (hid hd (by simp)),
          ih fun t ht => hid t (by simp [ht])⟩

/-- C9: `toggleComplete` changes nothing outside `tasks`, keeps the list
length, and per position flips exactly the matching task's `completed`
(id and title kept), leaving every other task in place unchanged. -/
theorem toggleComplete_frame (taskId : Int) (s : AppState) :
    (toggleComplete taskId s).loading = s.loading ∧
    (toggleComplete taskId s).refreshing = s.refreshing ∧
    (toggleComplete taskId s).error = s.error ∧
    (toggleComplete taskId s).filter = s.filter ∧
    (toggleComplete taskId s).tasks.length = s.tasks.length ∧
    ∀ i : Nat, (toggleComplete taskId s).tasks[i]? =
      (s.tasks[i]?).map fun t =>
        if t.id = taskId then Task.mk t.id t.title (!t.completed) else t := by
  refine ⟨rfl, rfl, rfl, rfl, by simp [toggleComplete], ?_⟩
  intro i
  simp only [toggleComplete, List.getElem?_map]
  cases s.tasks[i]? with
  | none => rfl
  | some t =>
      rcases t with ⟨ti, tt, tc⟩
      by_cases h : ti = taskId <;> simp [toggleTask, h]

/-- C10: a filter button's `onPress` only replaces `filter`. -/
theorem setFilter_frame (f : FILTER) (s : AppState) :
    (setFilter f s).filter = f ∧
    (setFilter f s).tasks = s.tasks ∧
    (setFilter f s).loading = s.loading ∧
    (setFilter f s).refreshing = s.refreshing ∧
    (setFilter f s).error = s.error :=
  ⟨rfl, rfl, rfl, rfl, rfl⟩

/-- C3: with a stored value present and readable, startup loading installs
the cached tasks, ends with `loading` and `refreshing` off, and neither
calls the network nor writes the cache. -/
theorem loadStoredTasks_cache_hit (s : AppState) (data : List Task)
    (remote : Except Unit (List Task)) (writeOk : Bool) :
    (loadStoredTasks s (some data) true remote writeOk).remoteCalls = 0 ∧
    (loadStoredTasks s (some data) true remote writeOk).writesIssued = [] ∧
    (loadStoredTasks s (some data) true remote writeOk).cache = some data ∧
    lastState s (loadStoredTasks s (some data) true remote writeOk).trace =
      { s with tasks := data, loading := false, refreshing := false } := by
  refine ⟨rfl, rfl, rfl, ?_⟩
  simp [loadStoredTasks, lastState]

/-- C6: with the cache slot empty, or the cache read throwing, startup
loading hits the remote endpoint exactly once, and a successful response is
handed to the cache write. -/
theorem loadStoredTasks_cache_miss (s : AppState) (cache : Option (List Task))
    (readOk : Bool) (remote : Except Unit (List Task)) (writeOk : Bool)
    (h : cache = none ∨ readOk = false) :
    (loadStoredTasks s cache readOk remote writeOk).remoteCalls = 1 ∧
    (∀ data, remote = Except.ok data →
      (loadStoredTasks s cache readOk remote writeOk).writesIssued = [data]) ∧
    (∀ data, remote = Except.ok data → writeOk = true →
      (loadStoredTasks s cache readOk remote writeOk).cache = some data) := by
  rcases h with h | h
  · subst h
    cases readOk <;> cases remote <;> cases writeOk <;>
      simp [loadStoredTasks, fetchTasks]
  · subst h
    cases remote <;> cases writeOk <;>
      simp [loadStoredTasks, fetchTasks]

/-- Witness for `loadStoredTasks_cache_miss` at scenario A's concrete input:
empty cache, remote answers one task, the write succeeds. -/
theorem loadStoredTasks_cache_miss_witness :
    (loadStoredTasks initialState none true
      (Except.ok [Task.mk 1 "Buy milk" false]) true).remoteCalls = 1 ∧
    (loadStoredTasks initialState none true
      (Except.ok [Task.mk 1 "Buy milk" false]) true).writesIssued =
      [[Task.mk 1 "Buy milk" false]] ∧
    (loadStoredTasks initialState none true
      (Except.ok [Task.mk 1 "Buy milk" false]) true).cache =
      some [Task.mk 1 "Buy milk" false] := by
  obtain ⟨h1, h2, h3⟩ := loadStoredTasks_cache_miss initialState none true
    (Except.ok [Task.mk 1 "Buy milk" false]) true (Or.inl rfl)
  exact ⟨h1, h2 _ rfl, h3 _ rfl rfl⟩

/-- C5: `handleRefresh` first turns `refreshing` on, runs one fetch, and
its final update turns `refreshing` off; a failed fetch leaves `tasks`
exactly as before and ends with the fixed error message. -/
theorem handleRefresh_spec (s : AppState) (cache : Option (List Task))
    (remote : Except Unit (List Task)) (writeOk : Bool) :
    (handleRefresh s cache remote writeOk).trace.head? =
      some { s with refreshing := true } ∧
    (handleRefresh s cache remote writeOk).remoteCalls = 1 ∧
    (lastState s (handleRefresh s cache remote writeOk).trace).refreshing
      = false ∧
    (remote = Except.error () →
      (lastState s (handleRefresh s cache remote writeOk).trace).tasks
        = s.tasks ∧
      (lastState s (handleRefresh s cache remote writeOk).trace).error
        = some errorMsg) := by
  cases remote <;> cases writeOk <;>
    simp [handleRefresh, fetchTasks, lastState]

/-- C2, amended part: a successful remote fetch stores the data with
`loading` off and issues the cache write; when that write succeeds the run
ends with no error and the cache updated, but when the write fails the
catch handler fires: the cache keeps its old content and the run ends with
the fixed user-visible error message (the fetched tasks are kept). -/
theorem fetchTasks_success (s : AppState) (cache : Option (List Task))
    (data : List Task) (writeOk : Bool) :
    (lastState s (fetchTasks s cache (Except.ok data) writeOk).trace).tasks
      = data ∧
    (lastState s (fetchTasks s cache (Except.ok data) writeOk).trace).loading
      = false ∧
    (fetchTasks s cache (Except.ok data) writeOk).writesIssued = [data] ∧
    (writeOk = true →
      (fetchTasks s cache (Except.ok data) writeOk).cache = some data ∧
      (lastState s (fetchTasks s cache (Except.ok data) writeOk).trace).error
        = none) ∧
    (writeOk = false →
      (fetchTasks s cache (Except.ok data) writeOk).cache = cache ∧
      (lastState s (fetchTasks s cache (Except.ok data) writeOk).trace).error
        = some errorMsg) := by
  cases writeOk <;> simp [fetchTasks, lastState]

/-- C2, counterexample: remote success followed by a failing cache write
does surface the user-visible error — the run ends with `error` set to the
fixed message and the cache unwritten, against the claim that a cache-write
failure is only logged and `error` stays null. -/
theorem fetchTasks_cacheWriteFailure_cex :
    (lastState initialState
      (fetchTasks initialState none
        (Except.ok [Task.mk 1 "Buy milk" false]) false).trace).error
      = some errorMsg ∧
    (fetchTasks initialState none
      (Except.ok [Task.mk 1 "Buy milk" false]) false).cache = none ∧
    (lastState initialState
      (fetchTasks initialState none
        (Except.ok [Task.mk 1 "Buy milk" false]) false).trace).tasks
      = [Task.mk 1 "Buy milk" false] := by
  decide

/-- C4, amended part: across every transition of every operation, turning
`loading` on clears `error` in the same update, turning `refreshing` on
leaves `error` exactly as it was, and `error` only ever turns non-null to
the fixed message when the remote call or the in-try cache write failed. -/
theorem error_transition_discipline (s : AppState) (cache : Option (List Task))
    (readOk : Bool) (remote : Except Unit (List Task)) (writeOk : Bool) :
    (∀ p ∈ statePairs s (loadStoredTasks s cache readOk remote writeOk).trace,
      stepOk remote writeOk p) ∧
    (∀ p ∈ statePairs s (handleRefresh s cache remote writeOk).trace,
      stepOk remote writeOk p) ∧
    (∀ p ∈ statePairs s (fetchTasks s cache remote writeOk).trace,
      stepOk remote writeOk p) := by
  cases readOk <;> cases cache <;> cases remote <;> cases writeOk <;>
    simp +contextual [loadStoredTasks, handleRefresh, fetchTasks, statePairs,
      stepOk, lastState]

/-- C4, counterexample: retrying from the error screen. In the pre-state
`error` is the fixed message and `refreshing` is off; `handleRefresh`'s
first update turns `refreshing` on without clearing `error`, so immediately
after a `refreshing` transition to true the error is still non-null. -/
theorem refresh_stale_error_cex :
    ({ initialState with loading := false, error := some errorMsg } :
        AppState).refreshing = false ∧
    ((handleRefresh
        { initialState with loading := false, error := some errorMsg }
        none (Except.ok []) true).trace.headD initialState).refreshing
      = true ∧
    ((handleRefresh
        { initialState with loading := false, error := some errorMsg }
        none (Except.ok []) true).trace.headD initialState).error
      = some errorMsg := by
  decide

end Todos
